import Mathlib

/-
Verification of `src/projects/amped/functions/liquidity/getALPAPR.ts`
(repository `amped-finance/anon-integration-guide`).

The TypeScript function `getALPAPR` validates a chain name, reads two
on-chain values (`totalSupply` from a RewardTracker contract and
`tokensPerInterval` from a RewardDistributor contract), derives an
annualized percentage rate, and returns a tagged result.  This file
embeds the function shallowly:

* JavaScript `BigInt` values are `Nat` (arbitrary precision, division
  truncates toward zero = `Nat` division on non-negative operands;
  division by zero throws a `RangeError`, modelled explicitly).
* The `Number(bigint) / PRECISION` conversion and the division are
  binary64 operations; they are modelled exactly: `floatPair` rounds a
  non-negative rational to the nearest double (ties to even) and
  returns the exact value of that double as a numerator-denominator
  pair, and `baseAprPair` chains the conversion and the division, each
  with its own rounding, as the program does.  Overflow and subnormal
  rounding are not modelled: every value the program can feed these
  operations from 256-bit reads lies well inside the normal range.
  `toFixed(2)` is applied to the exact value of the resulting double,
  per the ECMAScript specification: values at or above 10^21 fall back
  to `ToString`, which prints numbers of that magnitude in exponent
  form (`d.ddd...e+NN`); below the threshold the value is printed with
  exactly 2 fractional digits, ties rounded up.  (The digit content of
  the exponent-form string is taken from the exact double value rather
  than the shortest round-trip representation; only its shape matters
  below.)  The idealized exact-rational rate `baseAprQ` and its
  rendering `toFixed2` are also defined, following the spec's wording,
  to compare the program against the spec's formula.
* The injected effects (the `notify` sink and the two contract reads)
  are an explicit environment `Env`: each read either yields a `Nat` or
  throws, and each `notify` call either succeeds or throws.  A run
  returns an `Outcome` (normal tagged result, or an exception escaping
  the function) together with the trace of observable events in order.
* The SDK helpers and the constants module are not part of the given
  sources; they are modelled from the spec where marked.
-/

namespace AmpedALPAPR

/-! ### Decimal strings -/

/-- The decimal digit character for `d` (meaningful for `d < 10`). -/
def digitChar (d : Nat) : Char := Char.ofNat (48 + d)

/-- Fuel-driven most-significant-first decimal digit list of `n`;
`fuel` bounds the recursion depth (any `fuel > n` is exact). -/
def natDigitsGo : Nat → Nat → List Char
  | 0, _ => []
  | fuel + 1, n => if n < 10 then [digitChar n] else natDigitsGo fuel (n / 10) ++ [digitChar (n % 10)]

/-- Decimal digit list of `n`, most significant first. -/
def natDigits (n : Nat) : List Char := natDigitsGo (n + 1) n

/-- Decimal string of a natural number, as JavaScript `BigInt.toString()`
produces for non-negative values. -/
def natToString (n : Nat) : String := String.mk (natDigits n)

/-- Is `c` one of the characters `0` … `9`? -/
def isDigit (c : Char) : Bool := decide ('0' ≤ c) && decide (c ≤ '9')

/-- Is `s` a non-empty string of decimal digits (a base-10 numeral)? -/
def isNatNumeral (s : String) : Bool := !s.data.isEmpty && s.data.all isDigit

/-- Is `s` of the form `<nonempty digits>.<digit><digit>`
(a decimal numeral with exactly two fractional digits)? -/
def isTwoDecimal (s : String) : Bool :=
  match s.data.reverse with
  | o :: t :: c :: rest => isDigit o && isDigit t && (c == '.') && !rest.isEmpty && rest.all isDigit
  | _ => false

/-- Does the character list `nd` occur at the head of `hay`? -/
def leadMatch : List Char → List Char → Bool
  | [], _ => true
  | _ :: _, [] => false
  | a :: as, b :: bs => (a == b) && leadMatch as bs

/-- Does the character list `nd` occur anywhere inside `hay`? -/
def occursIn : List Char → List Char → Bool
  | nd, [] => nd.isEmpty
  | nd, b :: bs => leadMatch nd (b :: bs) || occursIn nd bs

/-- Does `hay` contain `needle` as a contiguous substring? -/
def strHas (hay needle : String) : Bool := occursIn needle.data hay.data

/-- Does `s` start with `lead`? -/
def strStarts (s lead : String) : Bool := leadMatch lead.data s.data

/-! ### Constants and SDK helpers (the constants module and the
`@heyanon/sdk` are outside the given sources) -/

/-- Modelled from the spec: `NETWORKS.SONIC`, the single supported
network identifier (the source doc comment: chainName must be "sonic"). -/
def NETWORKS_SONIC : String := "sonic"

/-- Modelled from the spec: the `SECONDS_PER_YEAR` constant used for the
yearly emission (a 365-day year in seconds). -/
def SECONDS_PER_YEAR : Nat := 31536000

/-- Modelled from the spec: the `PRECISION` constant, a fixed integer
multiplier used to retain fractional accuracy during integer division. -/
def PRECISION : Nat := 1000000

/-- Modelled from the spec: the SDK's provider-resolution service keyed
by network identifier (spec section 6 and 7): identifiers the SDK knows
resolve to a chain id, unknown identifiers do not resolve; "sonic" is
supported by this function, while other resolvable chains are not. -/
def getChainFromName (chainName : String) : Option Nat :=
  if chainName = "sonic" then some 146
  else if chainName = "ethereum" then some 1
  else if chainName = "base" then some 8453
  else none

/-- A tagged function result: `success` is false exactly for failure
results. -/
structure FunctionReturn where
  success : Bool
  data : String
deriving DecidableEq

/-- Modelled from the spec: the SDK's `toResult` wraps a message into a
tagged result; the second argument marks a failure. -/
def toResult (data : String) (isError : Bool) : FunctionReturn :=
  ⟨!isError, data⟩

/-! ### Effects -/

/-- A JavaScript thrown value: either an `Error` carrying a message, or
any other value (whose message is unavailable). -/
inductive JsError where
  | error (message : String)
  | nonError
deriving DecidableEq

/-- Observable events of one invocation, in order of occurrence. -/
inductive Event where
  | notified (msg : String)
  | gotProvider
  | readTotalSupply
  | readTokensPerInterval
deriving DecidableEq

/-- The injected environment: what each `notify` call and each contract
read does.  `notifyOutcome msg = some e` means the sink throws `e` when
sent `msg`; a read either yields a value or throws. -/
structure Env where
  notifyOutcome : String → Option JsError
  totalSupplyResult : Except JsError Nat
  tokensPerIntervalResult : Except JsError Nat

/-- How one invocation ends: a returned result value, or an exception
escaping the function boundary. -/
inductive Outcome where
  | ok (r : FunctionReturn)
  | thrown (e : JsError)
deriving DecidableEq

/-! ### The messages of the source -/

def msgChecking : String := "Checking ALP APR information..."
def msgFetchTS : String := "Fetching total supply..."
def msgFetchTPI : String := "Fetching tokens per interval..."
def msgDone : String := "APR calculation completed"

/-- The catch clause of the source: an `Error` keeps its message behind
the fixed failure title, anything else becomes "Unknown error". -/
def catchMessage : JsError → String
  | .error m => "Failed to get ALP APR information: " ++ m
  | .nonError => "Failed to get ALP APR information: Unknown error"

/-! ### The APR arithmetic of the source -/

/-- `yearlyRewards = tokensPerInterval * BigInt(SECONDS_PER_YEAR)`. -/
def yearlyRewards (tokensPerInterval : Nat) : Nat :=
  tokensPerInterval * SECONDS_PER_YEAR

/-- The `BigInt` quotient `(yearlyRewards * BigInt(PRECISION) * 100n) / totalSupply`
(truncating division of non-negative values = `Nat` division). -/
def aprQuotient (tokensPerInterval totalSupply : Nat) : Nat :=
  yearlyRewards tokensPerInterval * PRECISION * 100 / totalSupply

/-- The idealized exact-rational value of `Number(quotient) / PRECISION`,
as the spec's formula describes it ("scaled back down by the same
precision scalar"); the program's binary64 value is `baseAprPair`
below, which can differ from this by the two rounding errors. -/
def baseAprQ (tokensPerInterval totalSupply : Nat) : ℚ :=
  (aprQuotient tokensPerInterval totalSupply : ℚ) / (PRECISION : ℚ)

/-- The integer the 2-decimal rendering of `x` encodes: `x * 100`
rounded to the nearest integer, ties rounded up (the ECMAScript
`toFixed` rounding for non-negative values). -/
def round2 (x : ℚ) : ℤ := ⌊x * 100 + 1 / 2⌋

/-- `round2` of the non-negative rational `q / P`, computed over `ℕ`:
`⌊100 * (q / P) + 1 / 2⌋ = (200 * q + P) / (2 * P)` with `ℕ` division. -/
def round2Scaled (q P : Nat) : Nat := (200 * q + P) / (2 * P)

/-- Exponent-form rendering (`d.ddd...e+NN`) used by ECMAScript
`ToString` for numbers at or above 10^21; digits are taken from the
exact value (the 17-significant-digit limit of binary floats is not
modelled, only the shape of the output matters below). -/
def expString (x : ℚ) : String :=
  let ds := natDigits (⌊x⌋).toNat
  String.mk (ds.take 1 ++ '.' :: (ds.drop 1).take 16 ++ 'e' :: '+' :: natDigits (ds.length - 1))

/-- `expString` of the non-negative rational `q / P`, computed over `ℕ`. -/
def expStringScaled (q P : Nat) : String :=
  let ds := natDigits (q / P)
  String.mk (ds.take 1 ++ '.' :: (ds.drop 1).take 16 ++ 'e' :: '+' :: natDigits (ds.length - 1))

/-- The `toFixed(2)` call of the source on a non-negative value, after
the ECMAScript specification: values at or above 10^21 fall back to
`ToString` (exponent form); below, the value is printed with exactly two
fractional digits, ties rounded up. -/
def toFixed2 (x : ℚ) : String :=
  if (10 : ℚ) ^ 21 ≤ x then expString x
  else
    let n : Nat := (round2 x).toNat
    String.mk (natDigits (n / 100) ++ '.' :: [digitChar (n % 100 / 10), digitChar (n % 100 % 10)])

/-- `toFixed2` of the non-negative rational `q / P`, computed over `ℕ`
(`toFixed2Scaled_eq` below proves it equal to `toFixed2 (q / P)`).
Inside `getALPAPR` it is applied to the exact value of the binary64
number `Number(quotient) / PRECISION` — ECMAScript `toFixed` operates
on the exact mathematical value of its double argument. -/
def toFixed2Scaled (q P : Nat) : String :=
  if 10 ^ 21 * P ≤ q then expStringScaled q P
  else
    let n : Nat := round2Scaled q P
    String.mk (natDigits (n / 100) ++ '.' :: [digitChar (n % 100 / 10), digitChar (n % 100 % 10)])

/-! ### Binary64 rounding -/

/-- Fuel-driven floor of the base-2 logarithm: for `n ≥ 1`,
`natLog2 n = k` with `2^k ≤ n < 2^(k+1)`. -/
def natLog2Go : Nat → Nat → Nat
  | 0, _ => 0
  | fuel + 1, n => if n < 2 then 0 else natLog2Go fuel (n / 2) + 1

/-- Floor of the base-2 logarithm of `n` (0 for `n = 0`). -/
def natLog2 (n : Nat) : Nat := natLog2Go n n

/-- The scaled fraction `(n / d) / 2^e` as a numerator-denominator pair
of naturals. -/
def pairForExp (n d : Nat) (e : Int) : Nat × Nat :=
  if 0 ≤ e then (n, d * 2 ^ e.toNat) else (n * 2 ^ (-e).toNat, d)

/-- The binary64 significand exponent of `n / d` (for `n, d ≥ 1`): the
`e` with `2^52 ≤ (n / d) / 2^e < 2^53`.  The first candidate from the
bit lengths can be one too high, in which case the scaled value falls
below `2^52` and `e` is decremented once (it is never too low, since
`n / d < 2^(natLog2 n - natLog2 d + 1)`). -/
def sigExp (n d : Nat) : Int :=
  let e0 : Int := (natLog2 n : Int) - (natLog2 d : Int) - 52
  let p := pairForExp n d e0
  if p.1 < 2 ^ 52 * p.2 then e0 - 1 else e0

/-- Round `N / D` to the nearest integer, ties to even. -/
def roundSig (N D : Nat) : Nat :=
  let m := N / D
  let r := N % D
  if 2 * r < D then m
  else if D < 2 * r then m + 1
  else if m % 2 = 0 then m else m + 1

/-- Round the non-negative rational `n / d` to the nearest binary64
double (round to nearest, ties to even) and return the exact value of
that double as a numerator-denominator pair (the denominator a power of
two).  Faithful for values in the normal range of binary64; every value
this embedding feeds it from 256-bit reads lies between 10^-6 and about
10^93, well inside that range, so neither overflow nor subnormal
rounding is modelled.  Integers below `2^53` (and any value whose
significand needs at most 53 bits) are returned exactly. -/
def floatPair (n d : Nat) : Nat × Nat :=
  if n = 0 then (0, 1)
  else
    let e := sigExp n d
    let p := pairForExp n d e
    let m := roundSig p.1 p.2
    if 0 ≤ e then (m * 2 ^ e.toNat, 1) else (m, 2 ^ (-e).toNat)

/-- The exact value of the binary64 number `Number(q) / P` of the
source: the `BigInt` quotient is converted to a double, then divided by
`P`, each step rounded to nearest (ties to even). -/
def baseAprPair (q P : Nat) : Nat × Nat :=
  let c := floatPair q 1
  floatPair c.1 (c.2 * P)

/-- The `baseApr.toFixed(2)` string of the source: ECMAScript `toFixed`
applied to the exact value of the binary64 number `Number(q) / P`. -/
def baseAprRender (q P : Nat) : String :=
  toFixed2Scaled (baseAprPair q P).1 (baseAprPair q P).2

/-- The object passed to `JSON.stringify` in the success branch. -/
structure APRInfo where
  baseApr : String
  yearlyRewards : String
  totalSupply : String
  tokensPerInterval : String
deriving DecidableEq

/-- `JSON.stringify` of the four-field object of the success branch. -/
def jsonStringify (i : APRInfo) : String :=
  "\x7b\"baseApr\":\"" ++ i.baseApr ++
  "\",\"yearlyRewards\":\"" ++ i.yearlyRewards ++
  "\",\"totalSupply\":\"" ++ i.totalSupply ++
  "\",\"tokensPerInterval\":\"" ++ i.tokensPerInterval ++ "\"\x7d"

/-! ### The function -/

/-- Shallow embedding of `getALPAPR`.  Control flow mirrors the source
line by line: resolve the chain name (unresolvable name: failure result
naming the network); reject resolvable names other than "sonic"
(failure result naming the supported chain); `await notify(...)`
OUTSIDE the try block (a throwing sink escapes); then inside the try:
resolve the provider and contracts, notify and read `totalSupply`,
notify and read `tokensPerInterval`, compute the rate (a zero
`totalSupply` makes the `BigInt` division throw a `RangeError`
"Division by zero"), notify completion and return the JSON success
result.  Every exception inside the try becomes the generic failure
result via `catchMessage`.  The second component is the event trace. -/
def getALPAPR (chainName : String) (account : String) (env : Env) :
    Outcome × List Event :=
  match getChainFromName chainName with
  | none => (Outcome.ok (toResult ("Network " ++ chainName ++ " not supported") true), [])
  | some _chainId =>
    if chainName ≠ NETWORKS_SONIC then
      (Outcome.ok (toResult "This function is only supported on Sonic chain" true), [])
    else
      match env.notifyOutcome msgChecking with
      | some e => (Outcome.thrown e, [Event.notified msgChecking])
      | none =>
        let t0 : List Event := [Event.notified msgChecking, Event.gotProvider]
        match env.notifyOutcome msgFetchTS with
        | some e => (Outcome.ok (toResult (catchMessage e) true), t0 ++ [Event.notified msgFetchTS])
        | none =>
          let t1 : List Event := t0 ++ [Event.notified msgFetchTS, Event.readTotalSupply]
          match env.totalSupplyResult with
          | Except.error e => (Outcome.ok (toResult (catchMessage e) true), t1)
          | Except.ok totalSupply =>
            match env.notifyOutcome msgFetchTPI with
            | some e => (Outcome.ok (toResult (catchMessage e) true), t1 ++ [Event.notified msgFetchTPI])
            | none =>
              let t2 : List Event := t1 ++ [Event.notified msgFetchTPI, Event.readTokensPerInterval]
              match env.tokensPerIntervalResult with
              | Except.error e => (Outcome.ok (toResult (catchMessage e) true), t2)
              | Except.ok tokensPerInterval =>
                if totalSupply = 0 then
                  (Outcome.ok (toResult (catchMessage (JsError.error "Division by zero")) true), t2)
                else
                  let yr := yearlyRewards tokensPerInterval
                  let q := yr * PRECISION * 100 / totalSupply
                  match env.notifyOutcome msgDone with
                  | some e => (Outcome.ok (toResult (catchMessage e) true), t2 ++ [Event.notified msgDone])
                  | none =>
                    (Outcome.ok (toResult (jsonStringify
                        ⟨baseAprRender q PRECISION, natToString yr, natToString totalSupply,
                         natToString tokensPerInterval⟩) false),
                     t2 ++ [Event.notified msgDone])

/-- The environment in which the sink never throws and both reads
succeed with the given values. -/
def okEnv (totalSupply tokensPerInterval : Nat) : Env :=
  ⟨fun _ => none, Except.ok totalSupply, Except.ok tokensPerInterval⟩

/-- An environment whose notification sink throws on every message
(the reads would succeed). -/
def throwingSinkEnv : Env :=
  ⟨fun _ => some (JsError.error "sink failed"), Except.ok 1000000, Except.ok 1⟩

/-- An environment in which the `totalSupply` read throws an `Error`
with message "rpc timeout" (the sink never throws). -/
def errReadEnv : Env :=
  ⟨fun _ => none, Except.error (JsError.error "rpc timeout"), Except.ok 1⟩

/-! ### Digit-string lemmas -/

theorem digitChar_isDigit (d : Nat) (h : d < 10) : isDigit (digitChar d) = true := by
  interval_cases d <;> decide

theorem natDigitsGo_ne_nil (fuel n : Nat) (h : n < fuel) : natDigitsGo fuel n ≠ [] := by
  cases fuel with
  | zero => omega
  | succ fuel =>
    rw [natDigitsGo]
    by_cases h10 : n < 10
    · simp [h10]
    · simp [h10]

theorem natDigitsGo_all (fuel : Nat) : ∀ n, n < fuel → (natDigitsGo fuel n).all isDigit = true := by
  induction fuel with
  | zero => omega
  | succ fuel ih =>
    intro n hn
    rw [natDigitsGo]
    by_cases h10 : n < 10
    · simp [h10, digitChar_isDigit n h10]
    · have hrec : n / 10 < fuel := by
        have h1 : n / 10 < n := Nat.div_lt_self (by omega) (by omega)
        omega
      simp [h10, List.all_append, ih (n / 10) hrec,
        digitChar_isDigit (n % 10) (Nat.mod_lt n (by omega))]

theorem natDigits_ne_nil (n : Nat) : natDigits n ≠ [] :=
  natDigitsGo_ne_nil (n + 1) n (Nat.lt_succ_self n)

theorem natDigits_all (n : Nat) : (natDigits n).all isDigit = true :=
  natDigitsGo_all (n + 1) n (Nat.lt_succ_self n)

theorem isNatNumeral_natToString (n : Nat) : isNatNumeral (natToString n) = true := by
  have h1 := natDigits_ne_nil n
  have h2 := natDigits_all n
  simp [isNatNumeral, natToString, h1, h2]

theorem isTwoDecimal_toFixed2Scaled (q P : Nat) (h : q < 10 ^ 21 * P) :
    isTwoDecimal (toFixed2Scaled q P) = true := by
  rw [toFixed2Scaled, if_neg (by omega)]
  have hne := natDigits_ne_nil (round2Scaled q P / 100)
  have hall := natDigits_all (round2Scaled q P / 100)
  have ht : round2Scaled q P % 100 / 10 < 10 := by omega
  have ho : round2Scaled q P % 100 % 10 < 10 := by omega
  simp [isTwoDecimal, List.reverse_append, digitChar_isDigit _ ht, digitChar_isDigit _ ho,
    hne, hall]

/-! ### Substring lemmas -/

theorem leadMatch_append_self (nd rest : List Char) : leadMatch nd (nd ++ rest) = true := by
  induction nd with
  | nil => rfl
  | cons a as ih => simp [leadMatch, ih]

theorem occursIn_nil_left (hay : List Char) : occursIn [] hay = true := by
  cases hay <;> simp [occursIn, leadMatch]

theorem occursIn_append (l1 nd l2 : List Char) : occursIn nd (l1 ++ (nd ++ l2)) = true := by
  induction l1 with
  | nil =>
    cases nd with
    | nil => simpa using occursIn_nil_left l2
    | cons c cs =>
      have h := leadMatch_append_self (c :: cs) l2
      simp only [List.cons_append] at h
      simp [occursIn, h]
  | cons a as ih => simp [occursIn, ih]

theorem strHas_middle (s1 nd s2 : String) : strHas (s1 ++ nd ++ s2) nd = true := by
  rcases s1 with ⟨l1⟩; rcases nd with ⟨l⟩; rcases s2 with ⟨l2⟩
  have h : (String.mk l1 ++ String.mk l ++ String.mk l2).data = l1 ++ (l ++ l2) := by
    simp [String.data_append]
  simp only [strHas, h]
  exact occursIn_append l1 l l2

/-! ### Bridge between the scaled `ℕ` forms and the `ℚ` forms -/

theorem floor_natCast_div (a b : Nat) : ⌊((a : ℚ) / (b : ℚ))⌋ = (a / b : Nat) := by
  rw [Rat.floor_natCast_div_natCast]; push_cast; rfl

theorem round2Scaled_eq (q P : Nat) (hP : 0 < P) :
    (round2Scaled q P : ℤ) = round2 ((q : ℚ) / (P : ℚ)) := by
  have hP' : ((P : ℚ)) ≠ 0 := by positivity
  have hx : (q : ℚ) / (P : ℚ) * 100 + 1 / 2 = ((200 * q + P : ℕ) : ℚ) / ((2 * P : ℕ) : ℚ) := by
    push_cast
    field_simp
    ring
  rw [round2, hx, floor_natCast_div, round2Scaled]

theorem expStringScaled_eq (q P : Nat) :
    expStringScaled q P = expString ((q : ℚ) / (P : ℚ)) := by
  rw [expStringScaled, expString, floor_natCast_div]
  rfl

theorem toFixed2Scaled_eq (q P : Nat) (hP : 0 < P) :
    toFixed2Scaled q P = toFixed2 ((q : ℚ) / (P : ℚ)) := by
  have hP' : (0 : ℚ) < (P : ℚ) := by positivity
  have hcond : (10 : ℚ) ^ 21 ≤ (q : ℚ) / (P : ℚ) ↔ 10 ^ 21 * P ≤ q := by
    rw [le_div_iff₀ hP']
    constructor
    · intro h
      have := (Nat.cast_le (α := ℚ)).mpr (le_refl (10 ^ 21 * P))
      have h' : ((10 ^ 21 * P : ℕ) : ℚ) ≤ (q : ℚ) := by push_cast; push_cast at h; linarith
      exact_mod_cast h'
    · intro h
      have h' : ((10 ^ 21 * P : ℕ) : ℚ) ≤ (q : ℚ) := by exact_mod_cast h
      push_cast at h'; linarith
  rw [toFixed2, toFixed2Scaled]
  by_cases hc : 10 ^ 21 * P ≤ q
  · rw [if_pos hc, if_pos (hcond.mpr hc), expStringScaled_eq]
  · rw [if_neg hc, if_neg (fun h => hc (hcond.mp h))]
    have hn : (round2 ((q : ℚ) / (P : ℚ))).toNat = round2Scaled q P := by
      rw [← round2Scaled_eq q P hP]; exact Int.toNat_natCast _
    rw [hn]

example : natToString 3153 = "3153" := by decide

example : baseAprRender (aprQuotient 1 1000000) PRECISION = "3153.60" := by decide

example : baseAprRender 15000 PRECISION = "0.01" := by decide

example : (getALPAPR "sonic" "0x1" (okEnv 1000000 1)).1 =
    Outcome.ok (toResult (jsonStringify ⟨"3153.60", "31536000", "1000000", "1"⟩) false) := by
  decide

/-! ### Behaviour of `getALPAPR` -/

/-- On the supported chain, with a throw-free sink and successful reads
with a non-zero total supply, the run returns the JSON success result
and emits the full event sequence. -/
theorem getALPAPR_okEnv (account : String) (ts tpi : Nat) (h0 : ts ≠ 0) :
    getALPAPR NETWORKS_SONIC account (okEnv ts tpi) =
      (Outcome.ok (toResult (jsonStringify
          ⟨baseAprRender (aprQuotient tpi ts) PRECISION, natToString (yearlyRewards tpi),
           natToString ts, natToString tpi⟩) false),
       [Event.notified msgChecking, Event.gotProvider, Event.notified msgFetchTS,
        Event.readTotalSupply, Event.notified msgFetchTPI, Event.readTokensPerInterval,
        Event.notified msgDone]) := by
  simp [getALPAPR, okEnv, h0, aprQuotient]
  rfl

/-! ### Claim theorems -/

/-- C1 counterexample: at the reads `totalSupply = 210240000000`,
`tokensPerInterval = 1` the integer quotient is exactly 15000 and the
exact rate 0.015, whose 2-decimal rounding (the claim's formula,
`toFixed2` of `baseAprQ`) is "0.02"; but `Number(15000) / 1000000` is
the double 0.01499999999999999944..., so the program reports "0.01".
The claim's digit-exact general formula is therefore false of the
code. -/
theorem apr_formula_cex :
    (getALPAPR NETWORKS_SONIC "0x1" (okEnv 210240000000 1)).1 =
      Outcome.ok (toResult (jsonStringify
        ⟨"0.01", natToString (yearlyRewards 1), natToString 210240000000,
         natToString 1⟩) false) ∧
    aprQuotient 1 210240000000 = 15000 ∧
    toFixed2 (baseAprQ 1 210240000000) = "0.02" ∧
    ("0.01" : String) ≠ "0.02" := by
  refine ⟨?_, by decide, ?_, by decide⟩
  · rw [getALPAPR_okEnv "0x1" 210240000000 1 (by decide)]
    decide
  · have hq : aprQuotient 1 210240000000 = 15000 := by decide
    simp only [baseAprQ, hq, PRECISION]
    rw [← toFixed2Scaled_eq 15000 1000000 (by norm_num)]
    decide

/-- C1 (amended): for the supported network, when both contract reads
succeed with 256-bit values and `totalSupply` is non-zero, the success
result carries `yearlyRewards = tokensPerInterval * SECONDS_PER_YEAR`
and `baseApr = toFixed(2)` of the binary64 value `Number(quotient) /
PRECISION` (`baseAprRender` of the integer quotient) — which double
rounding can shift from the exact 2-decimal rounding of the claim's
formula; in particular for `totalSupply = 1000000` and
`tokensPerInterval = 1` the yearly rewards equal `1 * SECONDS_PER_YEAR`
and the reported rate is "3153.60", agreeing there with the exact
formula `(yearlyRewards * 100 / totalSupply)` rounded to 2 decimals. -/
theorem apr_success_formula (account : String) (ts tpi : Nat)
    (hts : ts < 2 ^ 256) (htpi : tpi < 2 ^ 256) (h0 : ts ≠ 0) :
    (getALPAPR NETWORKS_SONIC account (okEnv ts tpi)).1 =
      Outcome.ok (toResult (jsonStringify
        ⟨baseAprRender (aprQuotient tpi ts) PRECISION, natToString (tpi * SECONDS_PER_YEAR),
         natToString ts, natToString tpi⟩) false) ∧
    yearlyRewards tpi = tpi * SECONDS_PER_YEAR ∧
    baseAprRender (aprQuotient 1 1000000) PRECISION = "3153.60" ∧
    yearlyRewards 1 = 1 * SECONDS_PER_YEAR ∧
    toFixed2 (((1 * SECONDS_PER_YEAR * 100 : ℕ) : ℚ) / ((1000000 : ℕ) : ℚ)) = "3153.60" := by
  refine ⟨?_, rfl, by decide, rfl, ?_⟩
  · rw [getALPAPR_okEnv account ts tpi h0]
    rfl
  · rw [← toFixed2Scaled_eq _ _ (by norm_num : (0:ℕ) < 1000000)]
    decide

/-- Witness for C1 (amended) at `totalSupply = 1000000`,
`tokensPerInterval = 1`. -/
theorem apr_success_formula_instance :
    (getALPAPR NETWORKS_SONIC "0x1" (okEnv 1000000 1)).1 =
      Outcome.ok (toResult (jsonStringify
        ⟨baseAprRender (aprQuotient 1 1000000) PRECISION, natToString (1 * SECONDS_PER_YEAR),
         natToString 1000000, natToString 1⟩) false) :=
  (apr_success_formula "0x1" 1000000 1 (by norm_num) (by norm_num) (by decide)).1

/-- C2 counterexample: "ethereum" resolves to a chain id in the SDK but
is not the supported chain, and the failure message of that branch does
NOT mention the network name "ethereum" (it names Sonic instead), so
the claim as stated fails at this input. -/
theorem unsupported_network_cex :
    (getALPAPR "ethereum" "0x1" (okEnv 1000000 1)).1 =
      Outcome.ok (toResult "This function is only supported on Sonic chain" true) ∧
    (toResult "This function is only supported on Sonic chain" true).success = false ∧
    strHas "This function is only supported on Sonic chain" "ethereum" = false ∧
    getChainFromName "ethereum" = some 1 ∧
    (getALPAPR "ethereum" "0x1" (okEnv 1000000 1)).2 = [] :=
  ⟨rfl, rfl, by decide, rfl, rfl⟩

/-- C2 (amended): for every network identifier other than the supported
one the function returns a failure-tagged result without any contract
read or provider resolution (the event trace is empty); the message
mentions the network name when the identifier does not resolve, and
names the supported chain (Sonic) when the identifier resolves but is
not "sonic". -/
theorem unsupported_network_no_read (chainName account : String) (env : Env) :
    (getChainFromName chainName = none →
      getALPAPR chainName account env =
        (Outcome.ok (toResult ("Network " ++ chainName ++ " not supported") true), []) ∧
      strHas ("Network " ++ chainName ++ " not supported") chainName = true) ∧
    (getChainFromName chainName ≠ none → chainName ≠ NETWORKS_SONIC →
      getALPAPR chainName account env =
        (Outcome.ok (toResult "This function is only supported on Sonic chain" true), [])) := by
  constructor
  · intro h
    refine ⟨by simp [getALPAPR, h], ?_⟩
    exact strHas_middle "Network " chainName " not supported"
  · intro h1 h2
    cases hc : getChainFromName chainName with
    | none => exact absurd hc h1
    | some cid => simp [getALPAPR, hc, h2]

/-- Witness for C2 (amended): "arbitrum" does not resolve in the
modelled SDK; the run fails naming the network and reads nothing. -/
theorem unsupported_network_no_read_instance :
    getALPAPR "arbitrum" "0x1" (okEnv 1000000 1) =
      (Outcome.ok (toResult ("Network " ++ "arbitrum" ++ " not supported") true), []) :=
  ((unsupported_network_no_read "arbitrum" "0x1" (okEnv 1000000 1)).1 (by decide)).1

/-- C3: provided the pre-try notification succeeds, no invocation ends
in a thrown exception (every run returns a result value), and an
`Error` thrown by either contract read surfaces as the failure-tagged
result that preserves the underlying message. -/
theorem read_errors_contained (chainName account : String) (env : Env)
    (hn : env.notifyOutcome msgChecking = none) :
    (∃ r, (getALPAPR chainName account env).1 = Outcome.ok r) ∧
    (∀ m, env.notifyOutcome msgFetchTS = none →
      env.totalSupplyResult = Except.error (JsError.error m) →
      (getALPAPR NETWORKS_SONIC account env).1 =
        Outcome.ok (toResult ("Failed to get ALP APR information: " ++ m) true)) ∧
    (∀ m ts, env.notifyOutcome msgFetchTS = none → env.notifyOutcome msgFetchTPI = none →
      env.totalSupplyResult = Except.ok ts →
      env.tokensPerIntervalResult = Except.error (JsError.error m) →
      (getALPAPR NETWORKS_SONIC account env).1 =
        Outcome.ok (toResult ("Failed to get ALP APR information: " ++ m) true)) := by
  rcases env with ⟨no, tsr, tpir⟩
  simp only [Env.notifyOutcome] at hn
  refine ⟨?_, ?_, ?_⟩
  · simp only [getALPAPR]
    repeat' split
    all_goals first
      | exact ⟨_, rfl⟩
      | (exfalso; simp_all)
  · intro m hf hts
    simp only [Env.notifyOutcome] at hf
    simp only [Env.totalSupplyResult] at hts
    subst hts
    simp [getALPAPR, hn, hf, catchMessage]
    rfl
  · intro m ts hf hf2 hts htpi
    simp only [Env.notifyOutcome] at hf hf2
    simp only [Env.totalSupplyResult] at hts
    simp only [Env.tokensPerIntervalResult] at htpi
    subst hts
    subst htpi
    simp [getALPAPR, hn, hf, hf2, catchMessage]
    rfl

/-- Witness for C3: a `totalSupply` read throwing `Error("rpc timeout")`
yields the failure result carrying that message. -/
theorem read_errors_contained_instance :
    (getALPAPR NETWORKS_SONIC "0x1" errReadEnv).1 =
      Outcome.ok (toResult ("Failed to get ALP APR information: " ++ "rpc timeout") true) :=
  (read_errors_contained NETWORKS_SONIC "0x1" errReadEnv rfl).2.1 "rpc timeout" rfl rfl

/-- C4: on the supported network, a zero `totalSupply` does not crash
the function or propagate: the `BigInt` division throws a `RangeError`
which the catch-all turns into the generic failure-tagged result whose
message starts with "Failed to get ALP APR information". -/
theorem zero_supply_generic_failure (account : String) (tpi : Nat) :
    (getALPAPR NETWORKS_SONIC account (okEnv 0 tpi)).1 =
      Outcome.ok (toResult "Failed to get ALP APR information: Division by zero" true) ∧
    strStarts "Failed to get ALP APR information: Division by zero"
      "Failed to get ALP APR information" = true ∧
    (toResult "Failed to get ALP APR information: Division by zero" true).success = false :=
  ⟨rfl, by decide, rfl⟩

set_option maxRecDepth 400000 in
/-- C5 counterexample: at the 256-bit values `tokensPerInterval = 10^70`
and `totalSupply = 1` the run succeeds, but the binary64 rate is above
10^21, so the reported `baseApr` string is in exponent form (the
ECMAScript `toFixed` fallback) and is not a decimal numeral with
exactly two fractional digits. -/
theorem numeric_format_cex :
    (getALPAPR NETWORKS_SONIC "0x1" (okEnv 1 (10 ^ 70))).1 =
      Outcome.ok (toResult (jsonStringify
        ⟨baseAprRender (aprQuotient (10 ^ 70) 1) PRECISION, natToString (yearlyRewards (10 ^ 70)),
         natToString 1, natToString (10 ^ 70)⟩) false) ∧
    isTwoDecimal (baseAprRender (aprQuotient (10 ^ 70) 1) PRECISION) = false ∧
    (10 ^ 70 : ℕ) < 2 ^ 256 ∧ (1 : ℕ) ≠ 0 := by
  refine ⟨by rw [getALPAPR_okEnv "0x1" 1 (10 ^ 70) (by decide)], ?_, by norm_num, by decide⟩
  decide

/-- C5 (amended): in every success result the `totalSupply`,
`yearlyRewards` and `tokensPerInterval` strings are valid non-negative
base-10 numerals for all 256-bit values, and the `baseApr` string is a
valid decimal numeral with exactly two fractional digits provided the
binary64 value `Number(quotient) / PRECISION` is below the 10^21
`toFixed` fallback threshold (the hypothesis compares the exact value
of that double against 10^21, so double rounding that snaps up to
exactly 10^21 is excluded along with genuinely larger rates). -/
theorem numeric_format_valid (account : String) (ts tpi : Nat)
    (hts : ts < 2 ^ 256) (htpi : tpi < 2 ^ 256) (h0 : ts ≠ 0)
    (hsmall : (baseAprPair (aprQuotient tpi ts) PRECISION).1 <
      10 ^ 21 * (baseAprPair (aprQuotient tpi ts) PRECISION).2) :
    (getALPAPR NETWORKS_SONIC account (okEnv ts tpi)).1 =
      Outcome.ok (toResult (jsonStringify
        ⟨baseAprRender (aprQuotient tpi ts) PRECISION, natToString (yearlyRewards tpi),
         natToString ts, natToString tpi⟩) false) ∧
    isNatNumeral (natToString (yearlyRewards tpi)) = true ∧
    isNatNumeral (natToString ts) = true ∧
    isNatNumeral (natToString tpi) = true ∧
    isTwoDecimal (baseAprRender (aprQuotient tpi ts) PRECISION) = true :=
  ⟨by rw [getALPAPR_okEnv account ts tpi h0], isNatNumeral_natToString _,
    isNatNumeral_natToString _, isNatNumeral_natToString _,
    isTwoDecimal_toFixed2Scaled _ _ hsmall⟩

/-- Witness for C5 (amended) at `totalSupply = 1000000`,
`tokensPerInterval = 1`. -/
theorem numeric_format_valid_instance :
    isTwoDecimal (baseAprRender (aprQuotient 1 1000000) PRECISION) = true :=
  (numeric_format_valid "0x1" 1000000 1 (by norm_num) (by norm_num) (by decide)
    (by decide)).2.2.2.2

/-! Monotonicity helpers for C6. -/

/-- C7: for every non-zero `totalSupply` the pre-rounding rate
`baseAprQ` (the precision-scaled integer quotient scaled back down)
differs from the exact rational `yearlyRewards * 100 / totalSupply` by
at most `1 / PRECISION`. -/
theorem precision_error_bound (t s : Nat) (hs : s ≠ 0) :
    |baseAprQ t s - ((yearlyRewards t * 100 : ℕ) : ℚ) / ((s : ℕ) : ℚ)| ≤
      1 / (PRECISION : ℚ) := by
  have hsQ : (0 : ℚ) < (s : ℚ) := by positivity
  have hPQ : (0 : ℚ) < (PRECISION : ℚ) := by norm_num [PRECISION]
  set N : ℕ := yearlyRewards t * PRECISION * 100 with hN
  set q : ℕ := N / s with hq
  have h1 : (q : ℚ) ≤ (N : ℚ) / (s : ℚ) := Nat.cast_div_le
  have h2 : (N : ℚ) / (s : ℚ) < (q : ℚ) + 1 := by
    have hmod := Nat.div_add_mod N s
    rw [← hq] at hmod
    have hlt := Nat.mod_lt N (Nat.pos_of_ne_zero hs)
    have hnat : N < s * q + s := by omega
    rw [div_lt_iff₀ hsQ]
    calc (N : ℚ) < ((s * q + s : ℕ) : ℚ) := by exact_mod_cast hnat
      _ = ((q : ℚ) + 1) * (s : ℚ) := by push_cast; ring
  have hexact : ((yearlyRewards t * 100 : ℕ) : ℚ) / ((s : ℕ) : ℚ) =
      ((N : ℚ) / (s : ℚ)) / (PRECISION : ℚ) := by
    rw [hN]
    push_cast
    field_simp
    ring
  have hbase : baseAprQ t s = (q : ℚ) / (PRECISION : ℚ) := rfl
  rw [hbase, hexact, div_sub_div_same, abs_div, abs_of_pos hPQ]
  have habs : |(q : ℚ) - (N : ℚ) / (s : ℚ)| ≤ 1 :=
    abs_le.mpr ⟨by linarith, by linarith⟩
  exact (div_le_div_iff_of_pos_right hPQ).mpr habs

/-- Witness for C7 at `tokensPerInterval = 1`, `totalSupply = 1000000`. -/
theorem precision_error_bound_instance :
    |baseAprQ 1 1000000 - ((yearlyRewards 1 * 100 : ℕ) : ℚ) / ((1000000 : ℕ) : ℚ)| ≤
      1 / (PRECISION : ℚ) :=
  precision_error_bound 1 1000000 (by decide)

/-- C8: on the supported network with succeeding reads and sink, the
observable steps happen in the fixed sequential order: the checking
notification first, then provider resolution, the fetch notification
and the `totalSupply` read, the fetch notification and the
`tokensPerInterval` read, and the completion notification last, before
the result is returned; in particular the two reads are sequential with
`totalSupply` first. -/
theorem event_order (account : String) (ts tpi : Nat) (h0 : ts ≠ 0) :
    (getALPAPR NETWORKS_SONIC account (okEnv ts tpi)).2 =
      [Event.notified msgChecking, Event.gotProvider, Event.notified msgFetchTS,
       Event.readTotalSupply, Event.notified msgFetchTPI, Event.readTokensPerInterval,
       Event.notified msgDone] := by
  rw [getALPAPR_okEnv account ts tpi h0]

/-- Witness for C8 at concrete inputs. -/
theorem event_order_instance :
    (getALPAPR NETWORKS_SONIC "0x1" (okEnv 1000000 1)).2 =
      [Event.notified msgChecking, Event.gotProvider, Event.notified msgFetchTS,
       Event.readTotalSupply, Event.notified msgFetchTPI, Event.readTokensPerInterval,
       Event.notified msgDone] :=
  event_order "0x1" 1000000 1 (by decide)

/-- C9: the returned result (and the whole observable run) is
independent of the `account` argument: the parameter is accepted but
never used. -/
theorem account_independent (chainName a1 a2 : String) (env : Env) :
    getALPAPR chainName a1 env = getALPAPR chainName a2 env := rfl

/-- C10: there is an input behaviour where an exception escapes the
function: the first notification is awaited before the try block, so a
sink that throws there propagates the exception past the boundary. -/
theorem notify_escape :
    getALPAPR NETWORKS_SONIC "0x1" throwingSinkEnv =
      (Outcome.thrown (JsError.error "sink failed"), [Event.notified msgChecking]) := rfl

end AmpedALPAPR
